import Mathlib

/-!
Shallow embedding of the dictionary-server core from dict_server.c: the
command parser (server_op_check), the key-value backend
(server_write_key_value, server_read_key_value, server_delete_key_value),
the response encoder inside server_op_process, and the per-message
dispatch of the receive loop in dict_server_start.

Buffers and C strings are modelled as List Char; a NUL character
terminates the C-string view (cstr).  The file-system store is an
association list from key bytes to value bytes.  OS-level outcomes of
the open/write syscalls used by the SET path are supplied by an explicit
environment so that error paths can be analysed.
-/

namespace DictServer

/-- The operation enum server_op from dict_server.c. -/
inductive ServerOp where
  | NONE
  | SET
  | GET
  | DEL
  deriving DecidableEq

/-- The error enum server_err_t from dict_server.c, in declaration order. -/
inductive ServerErr where
  | OK
  | E_OS
  | E_NULL
  | E_SIZE
  | E_BUFFER
  | E_INVALID
  | E_MISSING
  | E_TOO_MANY
  | E_NOT_FOUND
  deriving DecidableEq

/-- Numeric value of each server_err_t enumerator (C enum starting at 0). -/
def ServerErr.code : ServerErr → Nat
  | .OK => 0
  | .E_OS => 1
  | .E_NULL => 2
  | .E_SIZE => 3
  | .E_BUFFER => 4
  | .E_INVALID => 5
  | .E_MISSING => 6
  | .E_TOO_MANY => 7
  | .E_NOT_FOUND => 8

/-- SERVER_MAX_ARGS from dict_server.c: the args array has two slots. -/
def SERVER_MAX_ARGS : Nat := 2

/-- SERVER_BUFFER_SIZE from dict_server.c. -/
def SERVER_BUFFER_SIZE : Nat := 128

/-- The characters of the literal SERVER_GET_OP_STRING. -/
def SERVER_GET_OP_STRING : List Char := ['G', 'E', 'T']

/-- The characters of the literal SERVER_SET_OP_STRING. -/
def SERVER_SET_OP_STRING : List Char := ['S', 'E', 'T']

/-- The characters of the literal SERVER_DEL_OP_STRING. -/
def SERVER_DEL_OP_STRING : List Char := ['D', 'E', 'L']

/-- C sizeof of the literal "GET": three characters plus the NUL
terminator, i.e. 4.  server_op_check compares the length argument
against this. -/
def SERVER_GET_OP_STRING_SIZEOF : Nat := SERVER_GET_OP_STRING.length + 1

/-- The digest struct server_op_t: an operation and the two-slot args
array.  A slot holds none where the C pointer is NULL. -/
structure server_op_t where
  op : ServerOp
  args0 : Option (List Char)
  args1 : Option (List Char)
  deriving DecidableEq

/-- A zero-initialised digest, as the callers of server_op_check build it. -/
def zeroDigest : server_op_t := ⟨ServerOp.NONE, none, none⟩

/-- The C-string view of a raw buffer: the bytes before the first NUL. -/
def cstr (raw : List Char) : List Char := raw.takeWhile (fun c => c != '\x00')

/-- The strtok delimiters of the parser: space and newline. -/
def isDelim (c : Char) : Bool := c == ' ' || c == '\n'

/-- The token sequence strtok_r produces on a C string: the maximal
nonempty runs of non-delimiter characters, in order. -/
def tokenize (s : List Char) : List (List Char) :=
  (s.splitOnP isDelim).filter (fun t => !t.isEmpty)

/-- Whether pat occurs at the start of s. -/
def beginsWith : List Char → List Char → Bool
  | [], _ => true
  | _ :: _, [] => false
  | p :: ps, c :: cs => p == c && beginsWith ps cs

/-- strstr: whether pat occurs as a contiguous substring of s. -/
def hasSubstr (pat : List Char) : List Char → Bool
  | [] => beginsWith pat []
  | c :: rest => beginsWith pat (c :: rest) || hasSubstr pat rest

/-- The keyword-detection phase of server_op_check: strstr for "GET",
then "SET", then "DEL"; the first hit fixes the operation, no hit means
SERVER_OP_NONE. -/
def detectOp (s : List Char) : ServerOp :=
  if hasSubstr SERVER_GET_OP_STRING s then ServerOp.GET
  else if hasSubstr SERVER_SET_OP_STRING s then ServerOp.SET
  else if hasSubstr SERVER_DEL_OP_STRING s then ServerOp.DEL
  else ServerOp.NONE

/-- The argument-collection loop of server_op_check.  Takes the argument
tokens (every token after the first) and the running op_args counter;
returns the early-return error (if any), the journal of writes
digest->args[op_args] = token performed, each as (index, token), and
the final op_args value.  The bound test op_args > SERVER_MAX_ARGS is
the source's: it lets an index-2 write through, one slot past the
two-element array. -/
def collectArgs : List (List Char) → Nat → Option ServerErr × List (Nat × List Char) × Nat
  | [], opArgs => (none, [], opArgs)
  | t :: ts, opArgs =>
    if opArgs > SERVER_MAX_ARGS then (some ServerErr.E_TOO_MANY, [], opArgs)
    else
      match collectArgs ts (opArgs + 1) with
      | (e, ws, fin) => (e, (opArgs, t) :: ws, fin)

/-- Effect of the write journal on the two real slots of the args array;
a write with index outside 0 and 1 lands in neither slot (in the C it
corrupts the memory next to the array). -/
def applyWrites (ws : List (Nat × List Char)) : Option (List Char) × Option (List Char) :=
  ws.foldl
    (fun acc w =>
      if w.1 = 0 then (some w.2, acc.2)
      else if w.1 = 1 then (acc.1, some w.2) else acc)
    (none, none)

/-- The digest as left behind by a run of the argument loop. -/
def mkDigest (op : ServerOp) (ws : List (Nat × List Char)) : server_op_t :=
  ⟨op, (applyWrites ws).1, (applyWrites ws).2⟩

/-- Result of server_op_check: the returned error, the digest as seen by
the (zero-initialising) caller afterwards, and the journal of args-array
writes performed. -/
structure CheckResult where
  err : ServerErr
  digest : server_op_t
  argWrites : List (Nat × List Char)
  deriving DecidableEq

/-- Tokenisation and argument-count validation of server_op_check, after
the operation has been detected: the first token is discarded, the rest
are collected by collectArgs, then SET demands exactly 2 arguments and
GET/DEL exactly 1, anything else being E_MISSING. -/
def argsStage (op : ServerOp) (argToks : List (List Char)) : CheckResult :=
  match collectArgs argToks 0 with
  | (some e, ws, _) => ⟨e, mkDigest op ws, ws⟩
  | (none, ws, opArgs) =>
    if op = ServerOp.SET ∧ opArgs ≠ SERVER_MAX_ARGS then
      ⟨ServerErr.E_MISSING, mkDigest op ws, ws⟩
    else if (op = ServerOp.GET ∨ op = ServerOp.DEL) ∧ opArgs ≠ 1 then
      ⟨ServerErr.E_MISSING, mkDigest op ws, ws⟩
    else ⟨ServerErr.OK, mkDigest op ws, ws⟩

/-- server_op_check from dict_server.c.  buffer is none for a NULL
pointer; length is the length argument.  The order of the guards, the
size bound (C sizeof of "GET", which counts the NUL terminator), the
strstr keyword detection and the strtok argument loop follow the source
line by line. -/
def server_op_check (buffer : Option (List Char)) (length : Nat) : CheckResult :=
  if length < SERVER_GET_OP_STRING_SIZEOF then ⟨ServerErr.E_SIZE, zeroDigest, []⟩
  else
    match buffer with
    | none => ⟨ServerErr.E_NULL, zeroDigest, []⟩
    | some raw =>
      if length = 0 then ⟨ServerErr.E_NULL, zeroDigest, []⟩
      else
        let s := cstr raw
        let op := detectOp s
        if op = ServerOp.NONE then ⟨ServerErr.E_INVALID, zeroDigest, []⟩
        else argsStage op (tokenize s).tail

/-- The on-disk store: one persistence unit per key, as an association
list from key bytes to value bytes (first match wins). -/
abbrev Store := List (List Char × List Char)

/-- Contents of the unit named key, if it exists. -/
def Store.lookup : Store → List Char → Option (List Char)
  | [], _ => none
  | (k, v) :: rest, key => if k = key then some v else Store.lookup rest key

/-- Create-or-replace the unit named key with the given bytes. -/
def Store.insert (st : Store) (key value : List Char) : Store := (key, value) :: st

/-- remove(key): drop the unit. -/
def Store.erase (st : Store) (key : List Char) : Store :=
  st.filter (fun p => p.1 != key)

/-- OS outcomes for the SET path: whether open(key, O_WRONLY|O_CREAT|O_TRUNC)
succeeds, and what write(fd, value, n) returns for an attempted count n
(-1 for a syscall error, otherwise the number of bytes written). -/
structure WriteEnv where
  openOk : Bool
  writeRet : Nat → Int

/-- The normal OS behaviour: open succeeds and write writes everything. -/
def defaultWriteEnv : WriteEnv := ⟨true, fun n => (n : Int)⟩

/-- server_write_key_value from dict_server.c, on the key and the value
the digest carries (digest->args[0] and digest->args[1]).  open with
O_TRUNC truncates the unit before the write, so a failed write still
leaves an empty unit behind.  The source inspects only cnt == 0: a
write error return of -1 is not detected. -/
def server_write_key_value (wenv : WriteEnv) (key value : List Char) (st : Store) :
    ServerErr × Store :=
  if wenv.openOk = false then (ServerErr.E_OS, st)
  else
    let ret := wenv.writeRet value.length
    let written := if 0 < ret then value.take ret.toNat else []
    let st1 := Store.insert st key written
    if ret = 0 then (ServerErr.E_OS, st1) else (ServerErr.OK, st1)

/-- server_read_key_value from dict_server.c.  openResult is the outcome
of open(key, O_RDONLY) on the unit named by digest->args[0]: none when
the unit is absent or unopenable, otherwise its contents.  read fills at
most bufferSize bytes of the caller's buffer; the second component is
the buffer contents after the call (the caller zero-initialises it). -/
def server_read_key_value (openResult : Option (List Char)) (bufferSize : Nat) :
    ServerErr × List Char :=
  match openResult with
  | none => (ServerErr.E_NOT_FOUND, [])
  | some v =>
    let cnt := min v.length bufferSize
    if cnt = 0 then (ServerErr.E_NOT_FOUND, [])
    else (ServerErr.OK, v.take bufferSize)

/-- The GET backend as called by server_op_process: read the unit named
key into the 128-byte response buffer. -/
def server_get_from_store (st : Store) (key : List Char) : ServerErr × List Char :=
  server_read_key_value (Store.lookup st key) SERVER_BUFFER_SIZE

/-- server_delete_key_value from dict_server.c: remove(key) succeeds iff
the unit exists. -/
def server_delete_key_value (key : List Char) (st : Store) : ServerErr × Store :=
  if (Store.lookup st key).isSome then (ServerErr.OK, Store.erase st key)
  else (ServerErr.E_NOT_FOUND, st)

/-- The bytes send() is given for the OK response:
sizeof(SERVER_OK_RESPONSE) counts the NUL terminator, so four bytes go
on the wire. -/
def okResponseBytes : List Char := ['O', 'K', '\n', '\x00']

/-- The bytes for the NOTFOUND response: sizeof again counts the NUL. -/
def notFoundResponseBytes : List Char :=
  ['N', 'O', 'T', 'F', 'O', 'U', 'N', 'D', '\n', '\x00']

/-- sprintf("ERROR:%d", err) sent with strlen: no NUL goes on the wire. -/
def errorResponse (e : ServerErr) : List Char := ("ERROR:" ++ toString e.code).data

/-- The backend dispatch of server_op_process: the backend's error, the
store after the operation, and the response-buffer contents (zeroed,
then filled by the GET read).  A missing argument slot means the C
source would dereference a NULL pointer here; server_op_check never
hands such a digest over (see the C10 invariant), and that branch is
kept only to make the dispatch total. -/
def processBackend (wenv : WriteEnv) (d : server_op_t) (st : Store) :
    ServerErr × Store × List Char :=
  match d.op, d.args0, d.args1 with
  | ServerOp.SET, some k, some v =>
    ((server_write_key_value wenv k v st).1, (server_write_key_value wenv k v st).2, [])
  | ServerOp.GET, some k, _ =>
    ((server_get_from_store st k).1, st, (server_get_from_store st k).2)
  | ServerOp.DEL, some k, _ =>
    ((server_delete_key_value k st).1, (server_delete_key_value k st).2, [])
  | ServerOp.NONE, _, _ => (ServerErr.E_NOT_FOUND, st, [])
  | _, _, _ => (ServerErr.E_NULL, st, [])

/-- Result of server_op_process: its return value, the store afterwards,
and the list of send() payloads, in order. -/
structure ProcResult where
  err : ServerErr
  store : Store
  sends : List (List Char)
  deriving DecidableEq

/-- server_op_process from dict_server.c: run the backend, then encode.
Success sends the OK bytes, and for GET additionally the response buffer
with a newline appended by strcat (so the bytes up to the buffer's first
NUL, then the newline).  Failure sends the NOTFOUND bytes for
E_NOT_FOUND and "ERROR:<code>" for every other error.  send() itself is
modelled as succeeding, delivering every byte it is given. -/
def server_op_process (wenv : WriteEnv) (d : server_op_t) (st : Store) : ProcResult :=
  let b := processBackend wenv d st
  if b.1 = ServerErr.OK then
    if d.op = ServerOp.GET then
      ⟨ServerErr.OK, b.2.1, [okResponseBytes, cstr b.2.2 ++ ['\n']]⟩
    else ⟨ServerErr.OK, b.2.1, [okResponseBytes]⟩
  else if b.1 = ServerErr.E_NOT_FOUND then ⟨b.1, b.2.1, [notFoundResponseBytes]⟩
  else ⟨b.1, b.2.1, [errorResponse b.1]⟩

/-- One iteration of the receive loop of dict_server_start for a
non-empty receive of raw: NUL-terminate, server_op_check, and on success
server_op_process; a parse failure is only logged, nothing is sent.
Returns the store afterwards and the list of send() payloads. -/
def dict_server_handle_message (wenv : WriteEnv) (raw : List Char) (st : Store) :
    Store × List (List Char) :=
  let r := server_op_check (some raw) raw.length
  if r.err = ServerErr.OK then
    let p := server_op_process wenv r.digest st
    (p.store, p.sends)
  else (st, [])

/-- The value contains neither space nor newline: the claims' whitespace
condition, phrased with the parser's own delimiter set. -/
def noDelims (v : List Char) : Bool := v.all (fun c => !(isDelim c))

/-! ### Facts about the parser's building blocks -/

theorem collectArgs_nil (k : Nat) : collectArgs [] k = (none, [], k) := rfl

theorem collectArgs_one (a : List Char) :
    collectArgs [a] 0 = (none, [(0, a)], 1) := rfl

theorem collectArgs_two (a b : List Char) :
    collectArgs [a, b] 0 = (none, [(0, a), (1, b)], 2) := rfl

theorem collectArgs_three (a b c : List Char) :
    collectArgs [a, b, c] 0 = (none, [(0, a), (1, b), (2, c)], 3) := rfl

theorem collectArgs_more (a b c d : List Char) (ts : List (List Char)) :
    collectArgs (a :: b :: c :: d :: ts) 0 =
      (some ServerErr.E_TOO_MANY, [(0, a), (1, b), (2, c)], 3) := rfl

/-- The digest's operation field is whatever the detection phase stored,
whatever the argument loop then decides. -/
theorem argsStage_op (op : ServerOp) (toks : List (List Char)) :
    (argsStage op toks).digest.op = op := by
  rcases toks with _ | ⟨a, _ | ⟨b, _ | ⟨c, _ | ⟨d, ts⟩⟩⟩⟩ <;>
    simp only [argsStage, collectArgs_nil, collectArgs_one, collectArgs_two,
      collectArgs_three, collectArgs_more] <;>
    first
      | rfl
      | (split_ifs <;> rfl)

/-- The argument stage returns only OK, E_MISSING or E_TOO_MANY. -/
theorem argsStage_err_cases (op : ServerOp) (toks : List (List Char)) :
    (argsStage op toks).err = ServerErr.OK ∨ (argsStage op toks).err = ServerErr.E_MISSING ∨
      (argsStage op toks).err = ServerErr.E_TOO_MANY := by
  rcases toks with _ | ⟨a, _ | ⟨b, _ | ⟨c, _ | ⟨d, ts⟩⟩⟩⟩ <;>
    simp only [argsStage, collectArgs_nil, collectArgs_one, collectArgs_two,
      collectArgs_three, collectArgs_more] <;>
    first
      | (split_ifs <;> simp)
      | simp

/-- If the stage accepts, SET got exactly its two arguments and GET/DEL
exactly one, so the corresponding slots hold tokens. -/
theorem argsStage_ok_inv (op : ServerOp) (toks : List (List Char))
    (h : (argsStage op toks).err = ServerErr.OK) :
    ((op = ServerOp.GET ∨ op = ServerOp.DEL) →
        (argsStage op toks).digest.args0.isSome = true) ∧
      (op = ServerOp.SET → (argsStage op toks).digest.args0.isSome = true ∧
        (argsStage op toks).digest.args1.isSome = true) := by
  cases op <;>
    rcases toks with _ | ⟨a, _ | ⟨b, _ | ⟨c, _ | ⟨d, ts⟩⟩⟩⟩ <;>
    simp_all [argsStage, collectArgs_nil, collectArgs_one, collectArgs_two,
      collectArgs_three, collectArgs_more, mkDigest, applyWrites, SERVER_MAX_ARGS]

theorem sizeof_get_eq : SERVER_GET_OP_STRING_SIZEOF = 4 := rfl

/-- server_op_check on a too-short length: E_SIZE before anything else. -/
theorem server_op_check_short (buffer : Option (List Char)) (length : Nat)
    (h : length < 4) :
    server_op_check buffer length = ⟨ServerErr.E_SIZE, zeroDigest, []⟩ := by
  simp [server_op_check, sizeof_get_eq, h]

/-- server_op_check on a NULL buffer once the size guard passes. -/
theorem server_op_check_none (length : Nat) (h : 4 ≤ length) :
    server_op_check none length = ⟨ServerErr.E_NULL, zeroDigest, []⟩ := by
  have h1 : ¬ length < SERVER_GET_OP_STRING_SIZEOF := by rw [sizeof_get_eq]; omega
  simp [server_op_check, h1]

/-- server_op_check on a non-NULL buffer once the size guard passes:
keyword detection on the C string, then the argument stage. -/
theorem server_op_check_some (raw : List Char) (length : Nat) (h : 4 ≤ length) :
    server_op_check (some raw) length =
      if detectOp (cstr raw) = ServerOp.NONE then ⟨ServerErr.E_INVALID, zeroDigest, []⟩
      else argsStage (detectOp (cstr raw)) (tokenize (cstr raw)).tail := by
  have h1 : ¬ length < SERVER_GET_OP_STRING_SIZEOF := by rw [sizeof_get_eq]; omega
  have h0 : ¬ length = 0 := by omega
  simp [server_op_check, h1, h0]

/-! ### Claims C3, C4, C5 — the parser's guards and the argument bound -/

/-- C3: on a recognized keyword followed by exactly three argument
tokens, server_op_check does NOT return E_TOO_MANY (it returns
E_MISSING), and the loop has already recorded a write at index 2, one
slot past the two-element args array; with four argument tokens
E_TOO_MANY is returned, but again only after the out-of-bounds index-2
write.  This is the off-by-one the bound test op_args > SERVER_MAX_ARGS
produces, refuting the claim that no slot beyond the array is ever
written and that three arguments yield E_TOO_MANY. -/
theorem c3_oob_write_behavior :
    (server_op_check (some ("GET a b c".data)) 9).err = ServerErr.E_MISSING ∧
      (server_op_check (some ("GET a b c".data)) 9).err ≠ ServerErr.E_TOO_MANY ∧
      ((2 : Nat), ['c']) ∈ (server_op_check (some ("GET a b c".data)) 9).argWrites ∧
      (server_op_check (some ("GET a b c d".data)) 11).err = ServerErr.E_TOO_MANY ∧
      ((2 : Nat), ['c']) ∈ (server_op_check (some ("GET a b c d".data)) 11).argWrites := by
  decide

/-- C4 counterexample: a buffer of length 3 ("GET" with no terminator
counted) does NOT pass the size validation — the C compares against
sizeof("GET") = 4, so length 3 is rejected with E_SIZE, contrary to the
claim that every buffer of length at least 3 passes. -/
theorem c4_length_three_counterexample :
    ¬ (3 : Nat) < 3 ∧ (server_op_check (some SERVER_GET_OP_STRING) 3).err = ServerErr.E_SIZE := by
  decide

/-- C4 (amended): server_op_check rejects with E_SIZE exactly when the
length is below 4, the C sizeof of the keyword literal "GET", which
counts the NUL terminator on top of the three characters. -/
theorem c4_size_threshold_amended (buffer : Option (List Char)) (length : Nat) :
    (server_op_check buffer length).err = ServerErr.E_SIZE ↔ length < 4 := by
  by_cases h : length < 4
  · simp [server_op_check_short buffer length h, h]
  · have h4 : 4 ≤ length := by omega
    cases buffer with
    | none => simp [server_op_check_none length h4, h]
    | some raw =>
      rw [server_op_check_some raw length h4]
      by_cases hop : detectOp (cstr raw) = ServerOp.NONE
      · simp [hop, h]
      · rw [if_neg hop]
        rcases argsStage_err_cases (detectOp (cstr raw)) (tokenize (cstr raw)).tail with
          he | he | he <;> simp [he, h]

/-- C5 counterexample: a zero-length buffer does not fail with E_NULL;
the size check runs first, so server_op_check returns E_SIZE. -/
theorem c5_zero_length_counterexample :
    (server_op_check none 0).err = ServerErr.E_SIZE ∧
      (server_op_check none 0).err ≠ ServerErr.E_NULL := by
  decide

/-- C5 (amended): a NULL buffer fails with E_NULL provided the length
passes the size guard (length at least 4); a zero-length buffer — NULL
or not — fails with E_SIZE, because the size check precedes the null
check in server_op_check. -/
theorem c5_null_zero_amended :
    (∀ length : Nat, 4 ≤ length → (server_op_check none length).err = ServerErr.E_NULL) ∧
      (∀ buffer : Option (List Char), (server_op_check buffer 0).err = ServerErr.E_SIZE) := by
  constructor
  · intro length h
    rw [server_op_check_none length h]
  · intro buffer
    rw [server_op_check_short buffer 0 (by omega)]

/-- C5 witness: the amended claim at a concrete instance. -/
theorem c5_null_zero_witness :
    4 ≤ 4 ∧ (server_op_check none 4).err = ServerErr.E_NULL :=
  ⟨by decide, c5_null_zero_amended.1 4 (by decide)⟩

/-! ### Substring search and the C-string view -/

/-- A NUL-free buffer is its own C string. -/
theorem cstr_eq_of_no_nul : ∀ (raw : List Char), (∀ c ∈ raw, c ≠ '\x00') → cstr raw = raw
  | [], _ => rfl
  | c :: cs, h => by
    have hc : (c != '\x00') = true := by
      simpa using h c (List.mem_cons_self c cs)
    have ih := cstr_eq_of_no_nul cs (fun x hx => h x (List.mem_cons_of_mem c hx))
    unfold cstr at ih ⊢
    rw [List.takeWhile_cons, hc]
    simp [ih]

/-- beginsWith really is string-prefix testing. -/
theorem beginsWith_iff : ∀ (p s : List Char), beginsWith p s = true ↔ p <+: s
  | [], s => by simp [beginsWith]
  | a :: p, [] => by simp [beginsWith]
  | a :: p, b :: s => by
    simp [beginsWith, beginsWith_iff p s, List.cons_prefix_cons]

/-- hasSubstr really is strstr: it finds exactly the contiguous
substrings. -/
theorem hasSubstr_iff : ∀ (p s : List Char), hasSubstr p s = true ↔ p <:+: s
  | p, [] => by simp [hasSubstr, beginsWith_iff]
  | p, c :: s => by
    rw [hasSubstr, List.infix_cons_iff]
    simp [Bool.or_eq_true, beginsWith_iff, hasSubstr_iff p s]

/-- A pattern found at the start of a truncated buffer is found at the
start of the buffer. -/
theorem beginsWith_takeWhile (q : Char → Bool) :
    ∀ (s p : List Char), beginsWith p (s.takeWhile q) = true → beginsWith p s = true
  | _, [] => fun _ => rfl
  | [], p :: ps => by simp [List.takeWhile, beginsWith]
  | c :: cs, p :: ps => by
    intro h
    rw [List.takeWhile_cons] at h
    by_cases hq : q c
    · rw [if_pos hq] at h
      simp only [beginsWith, Bool.and_eq_true] at h ⊢
      exact ⟨h.1, beginsWith_takeWhile q cs ps h.2⟩
    · rw [if_neg hq] at h
      exact absurd h (by simp [beginsWith])

/-- A pattern found in a truncated buffer is found in the buffer. -/
theorem hasSubstr_takeWhile (q : Char → Bool) :
    ∀ (s p : List Char), hasSubstr p (s.takeWhile q) = true → hasSubstr p s = true
  | [], _ => fun h => h
  | c :: cs, p => by
    intro h
    rw [List.takeWhile_cons] at h
    by_cases hq : q c
    · rw [if_pos hq] at h
      rw [hasSubstr] at h ⊢
      simp only [Bool.or_eq_true] at h ⊢
      rcases h with h | h
      · left
        exact beginsWith_takeWhile q (c :: cs) p (by rw [List.takeWhile_cons, if_pos hq]; exact h)
      · right
        exact hasSubstr_takeWhile q cs p h
    · rw [if_neg hq] at h
      cases p with
      | nil => simp [hasSubstr, beginsWith]
      | cons a as => simp [hasSubstr, beginsWith] at h
  termination_by s => s.length

/-- strstr on the NUL-truncated view finds nothing that the raw bytes do
not contain. -/
theorem hasSubstr_cstr_false (pat raw : List Char) (h : hasSubstr pat raw = false) :
    hasSubstr pat (cstr raw) = false := by
  cases hb : hasSubstr pat (cstr raw) with
  | false => rfl
  | true =>
    have : hasSubstr pat raw = true := by
      apply hasSubstr_takeWhile (fun c => c != '\x00') raw pat
      simpa [cstr] using hb
    rw [this] at h
    exact absurd h (by simp)

/-! ### Claim C8 — keyword detection by substring search with precedence -/

/-- C8: on a buffer that reaches keyword recognition (length at least
sizeof("GET") = 4, no embedded NUL), the operation kind is fixed by
substring search for "GET", then "SET", then "DEL", anywhere in the
buffer; the first keyword found in this precedence order becomes the
digest's op, and if none occurs server_op_check returns E_INVALID. -/
theorem c8_keyword_precedence (raw : List Char) (length : Nat) (h4 : 4 ≤ length)
    (hnul : ∀ c ∈ raw, c ≠ '\x00') :
    (hasSubstr SERVER_GET_OP_STRING raw = true →
        (server_op_check (some raw) length).digest.op = ServerOp.GET) ∧
      (hasSubstr SERVER_GET_OP_STRING raw = false →
        hasSubstr SERVER_SET_OP_STRING raw = true →
        (server_op_check (some raw) length).digest.op = ServerOp.SET) ∧
      (hasSubstr SERVER_GET_OP_STRING raw = false →
        hasSubstr SERVER_SET_OP_STRING raw = false →
        hasSubstr SERVER_DEL_OP_STRING raw = true →
        (server_op_check (some raw) length).digest.op = ServerOp.DEL) ∧
      (hasSubstr SERVER_GET_OP_STRING raw = false →
        hasSubstr SERVER_SET_OP_STRING raw = false →
        hasSubstr SERVER_DEL_OP_STRING raw = false →
        (server_op_check (some raw) length).err = ServerErr.E_INVALID) := by
  have hc : cstr raw = raw := cstr_eq_of_no_nul raw hnul
  rw [server_op_check_some raw length h4, hc]
  refine ⟨?_, ?_, ?_, ?_⟩
  · intro hg
    have hop : detectOp raw = ServerOp.GET := by simp [detectOp, hg]
    simp only [hop]
    rw [if_neg (by decide)]
    exact argsStage_op _ _
  · intro hg hs
    have hop : detectOp raw = ServerOp.SET := by simp [detectOp, hg, hs]
    simp only [hop]
    rw [if_neg (by decide)]
    exact argsStage_op _ _
  · intro hg hs hd
    have hop : detectOp raw = ServerOp.DEL := by simp [detectOp, hg, hs, hd]
    simp only [hop]
    rw [if_neg (by decide)]
    exact argsStage_op _ _
  · intro hg hs hd
    have hop : detectOp raw = ServerOp.NONE := by simp [detectOp, hg, hs, hd]
    simp [hop]

/-- C8 witness: the precedence statement at a concrete buffer holding
"SET" but not "GET". -/
theorem c8_keyword_precedence_witness :
    4 ≤ 7 ∧ (∀ c ∈ ("SET k v".data), c ≠ '\x00') ∧
      (hasSubstr SERVER_GET_OP_STRING ("SET k v".data) = false →
        hasSubstr SERVER_SET_OP_STRING ("SET k v".data) = true →
        (server_op_check (some ("SET k v".data)) 7).digest.op = ServerOp.SET) :=
  ⟨by decide, by decide, (c8_keyword_precedence ("SET k v".data) 7 (by decide) (by decide)).2.1⟩

/-! ### Claim C10 — the invariant of a validated digest -/

/-- C10: whenever server_op_check returns OK, the digest's kind is SET,
GET or DEL (never NONE, so the fallback branch of server_op_process
cannot be taken), its first argument slot holds a token, and for SET the
second slot holds one too — the backend operations are never handed a
NULL argument by a validated command. -/
theorem c10_validated_digest_invariant (buffer : Option (List Char)) (length : Nat)
    (h : (server_op_check buffer length).err = ServerErr.OK) :
    ((server_op_check buffer length).digest.op = ServerOp.SET ∨
        (server_op_check buffer length).digest.op = ServerOp.GET ∨
        (server_op_check buffer length).digest.op = ServerOp.DEL) ∧
      (server_op_check buffer length).digest.args0.isSome = true ∧
      ((server_op_check buffer length).digest.op = ServerOp.SET →
        (server_op_check buffer length).digest.args1.isSome = true) := by
  by_cases hlen : length < 4
  · rw [server_op_check_short buffer length hlen] at h
    exact absurd h (by decide)
  · have h4 : 4 ≤ length := by omega
    cases buffer with
    | none =>
      rw [server_op_check_none length h4] at h
      exact absurd h (by decide)
    | some raw =>
      rw [server_op_check_some raw length h4] at h ⊢
      by_cases hop : detectOp (cstr raw) = ServerOp.NONE
      · rw [if_pos hop] at h
        exact absurd h (by decide)
      · rw [if_neg hop] at h ⊢
        cases hdet : detectOp (cstr raw) with
        | NONE => exact absurd hdet hop
        | SET =>
          rw [hdet] at h
          have hinv := argsStage_ok_inv ServerOp.SET ((tokenize (cstr raw)).tail) h
          have hopeq := argsStage_op ServerOp.SET ((tokenize (cstr raw)).tail)
          exact ⟨Or.inl hopeq, (hinv.2 rfl).1, fun _ => (hinv.2 rfl).2⟩
        | GET =>
          rw [hdet] at h
          have hinv := argsStage_ok_inv ServerOp.GET ((tokenize (cstr raw)).tail) h
          have hopeq := argsStage_op ServerOp.GET ((tokenize (cstr raw)).tail)
          exact ⟨Or.inr (Or.inl hopeq), hinv.1 (Or.inl rfl),
            fun hs => absurd (hopeq.symm.trans hs) (by decide)⟩
        | DEL =>
          rw [hdet] at h
          have hinv := argsStage_ok_inv ServerOp.DEL ((tokenize (cstr raw)).tail) h
          have hopeq := argsStage_op ServerOp.DEL ((tokenize (cstr raw)).tail)
          exact ⟨Or.inr (Or.inr hopeq), hinv.1 (Or.inr rfl),
            fun hs => absurd (hopeq.symm.trans hs) (by decide)⟩

/-- C10 witness: the invariant at the concrete validated command "SET k v". -/
theorem c10_validated_digest_witness :
    (server_op_check (some ("SET k v".data)) 7).err = ServerErr.OK ∧
      (((server_op_check (some ("SET k v".data)) 7).digest.op = ServerOp.SET ∨
          (server_op_check (some ("SET k v".data)) 7).digest.op = ServerOp.GET ∨
          (server_op_check (some ("SET k v".data)) 7).digest.op = ServerOp.DEL) ∧
        (server_op_check (some ("SET k v".data)) 7).digest.args0.isSome = true ∧
        ((server_op_check (some ("SET k v".data)) 7).digest.op = ServerOp.SET →
          (server_op_check (some ("SET k v".data)) 7).digest.args1.isSome = true)) :=
  ⟨by decide, c10_validated_digest_invariant (some ("SET k v".data)) 7 (by decide)⟩

/-! ### Claim C2 — no wire response for an unparseable message -/

/-- C2 counterexample: the request "FOO bar\n" contains none of the
keywords; server_op_check fails with E_INVALID and the receive loop only
logs — nothing at all is sent on the socket, in particular not the
ERROR:<code> response the claim requires. -/
theorem c2_foo_counterexample :
    (dict_server_handle_message defaultWriteEnv ("FOO bar\n".data) []).2 = [] ∧
      errorResponse ServerErr.E_INVALID ∉
        (dict_server_handle_message defaultWriteEnv ("FOO bar\n".data) []).2 := by
  decide

/-- C2 (amended): for every received message whose buffer contains none
of the substrings "GET", "SET", "DEL", the server sends nothing back at
all — the parse error is only logged, the message is dropped, and the
store is untouched.  (ERROR:<code> responses are produced only after a
successful parse, by server_op_process.) -/
theorem c2_no_response_amended (wenv : WriteEnv) (raw : List Char) (st : Store)
    (hget : hasSubstr SERVER_GET_OP_STRING raw = false)
    (hset : hasSubstr SERVER_SET_OP_STRING raw = false)
    (hdel : hasSubstr SERVER_DEL_OP_STRING raw = false) :
    dict_server_handle_message wenv raw st = (st, []) := by
  have herr : (server_op_check (some raw) raw.length).err ≠ ServerErr.OK := by
    by_cases hlen : raw.length < 4
    · rw [server_op_check_short _ _ hlen]
      decide
    · have h4 : 4 ≤ raw.length := by omega
      rw [server_op_check_some raw _ h4]
      have hop : detectOp (cstr raw) = ServerOp.NONE := by
        simp [detectOp, hasSubstr_cstr_false _ _ hget, hasSubstr_cstr_false _ _ hset,
          hasSubstr_cstr_false _ _ hdel]
      rw [if_pos hop]
      decide
  simp [dict_server_handle_message, herr]

/-- C2 witness: the amended claim at the concrete request "FOO bar\n". -/
theorem c2_no_response_witness :
    hasSubstr SERVER_GET_OP_STRING ("FOO bar\n".data) = false ∧
      hasSubstr SERVER_SET_OP_STRING ("FOO bar\n".data) = false ∧
      hasSubstr SERVER_DEL_OP_STRING ("FOO bar\n".data) = false ∧
      dict_server_handle_message defaultWriteEnv ("FOO bar\n".data) [] = ([], []) :=
  ⟨by decide, by decide, by decide,
    c2_no_response_amended defaultWriteEnv ("FOO bar\n".data) []
      (by decide) (by decide) (by decide)⟩

/-! ### Claims C1, C7, C9 — the key-value backend -/

/-- Under the normal OS behaviour, writing a nonempty value stores it. -/
theorem server_write_key_value_default (k v : List Char) (st : Store) (hne : v ≠ []) :
    server_write_key_value defaultWriteEnv k v st = (ServerErr.OK, Store.insert st k v) := by
  have hvpos : 0 < v.length := List.length_pos.mpr hne
  have hret : (0 : Int) < ((v.length : Nat) : Int) := by exact_mod_cast hvpos
  have hne0 : ¬ ((v.length : Nat) : Int) = 0 := by omega
  simp [server_write_key_value, defaultWriteEnv, hret, hne0, Int.toNat_natCast,
    List.take_length]

/-- Reading an open unit with nonempty contents succeeds and leaves the
first min(length, 128) bytes in the buffer. -/
theorem server_read_key_value_some (v : List Char) (hv : v ≠ []) :
    server_read_key_value (some v) SERVER_BUFFER_SIZE =
      (ServerErr.OK, v.take SERVER_BUFFER_SIZE) := by
  have hpos : 0 < v.length := List.length_pos.mpr hv
  have hmin : ¬ min v.length SERVER_BUFFER_SIZE = 0 := by
    simp only [SERVER_BUFFER_SIZE]
    omega
  simp [server_read_key_value, hmin]

/-- C9: the GET backend returns E_NOT_FOUND both when the persistence
unit cannot be opened (absent or unopenable, openResult = none) and when
it opens but zero bytes are read (an existing-but-empty value, so the
two are indistinguishable); in every other case it returns OK and the
read bytes — min(length, 128) of them — are left in the caller-supplied
buffer. -/
theorem c9_get_not_found_cases (openResult : Option (List Char)) (v : List Char) :
    (openResult = none →
        (server_read_key_value openResult SERVER_BUFFER_SIZE).1 = ServerErr.E_NOT_FOUND) ∧
      (openResult = some [] →
        (server_read_key_value openResult SERVER_BUFFER_SIZE).1 = ServerErr.E_NOT_FOUND) ∧
      (openResult = some v → v ≠ [] →
        server_read_key_value openResult SERVER_BUFFER_SIZE =
          (ServerErr.OK, v.take SERVER_BUFFER_SIZE)) := by
  refine ⟨?_, ?_, ?_⟩
  · rintro rfl
    rfl
  · rintro rfl
    rfl
  · rintro rfl hv
    exact server_read_key_value_some v hv

/-- C9 witness: reading an existing two-byte value succeeds and yields
its bytes. -/
theorem c9_get_not_found_witness :
    server_read_key_value (some ['4', '2']) SERVER_BUFFER_SIZE = (ServerErr.OK, ['4', '2']) := by
  have h := (c9_get_not_found_cases (some ['4', '2']) ['4', '2']).2.2 rfl (by decide)
  exact h

/-- C1 counterexample: the empty value satisfies every hypothesis of the
claim (no whitespace, fits the 128-byte buffer), yet SET fails: write()
of zero bytes returns 0, which server_write_key_value maps to E_OS, and
the subsequent GET sees the truncated empty unit as E_NOT_FOUND — the
round trip neither succeeds nor yields the value. -/
theorem c1_empty_value_counterexample :
    noDelims [] = true ∧ (List.length ([] : List Char)) ≤ 128 ∧
      (server_write_key_value defaultWriteEnv ['x'] [] []).1 = ServerErr.E_OS ∧
      (server_write_key_value defaultWriteEnv ['x'] [] []).1 ≠ ServerErr.OK ∧
      (server_get_from_store (server_write_key_value defaultWriteEnv ['x'] [] []).2 ['x']).1 =
        ServerErr.E_NOT_FOUND := by
  decide

/-- C1 (amended): for every key k and NONEMPTY value v with no embedded
whitespace or newline that fits the 128-byte response buffer, SET (under
normal OS behaviour) succeeds and a following GET succeeds and yields
exactly the bytes of v. -/
theorem c1_roundtrip_amended (k v : List Char) (st : Store) (hne : v ≠ [])
    (hws : noDelims v = true) (hlen : v.length ≤ SERVER_BUFFER_SIZE) :
    (server_write_key_value defaultWriteEnv k v st).1 = ServerErr.OK ∧
      server_get_from_store (server_write_key_value defaultWriteEnv k v st).2 k =
        (ServerErr.OK, v) := by
  rw [server_write_key_value_default k v st hne]
  refine ⟨rfl, ?_⟩
  have hlk : Store.lookup (Store.insert st k v) k = some v := by
    simp [Store.insert, Store.lookup]
  unfold server_get_from_store
  rw [hlk, server_read_key_value_some v hne, List.take_of_length_le hlen]

/-- C1 witness: the round trip at a concrete key and value. -/
theorem c1_roundtrip_witness :
    (['4', '2'] : List Char) ≠ [] ∧ noDelims ['4', '2'] = true ∧
      (List.length ['4', '2']) ≤ SERVER_BUFFER_SIZE ∧
      (server_write_key_value defaultWriteEnv ['k'] ['4', '2'] []).1 = ServerErr.OK ∧
      server_get_from_store (server_write_key_value defaultWriteEnv ['k'] ['4', '2'] []).2
          ['k'] = (ServerErr.OK, ['4', '2']) :=
  ⟨by decide, by decide, by decide,
    (c1_roundtrip_amended ['k'] ['4', '2'] [] (by decide) (by decide) (by decide)).1,
    (c1_roundtrip_amended ['k'] ['4', '2'] [] (by decide) (by decide) (by decide)).2⟩

/-- C7: code_bug evidence.  A write that fails at the OS level returns
-1, but server_write_key_value only tests cnt == 0, so the operation
reports SERVER_OK despite the failed write; conversely writing an empty
value returns 0 bytes — no OS failure — yet yields E_OS.  The claimed
equivalence (E_OS iff open fails or write fails) is broken in both
directions. -/
theorem c7_write_error_ignored :
    (server_write_key_value ⟨true, fun _ => -1⟩ ['x'] ['y'] []).1 = ServerErr.OK ∧
      ((-1 : Int) < 0) ∧
      (server_write_key_value ⟨false, fun n => (n : Int)⟩ ['x'] ['y'] []).1 = ServerErr.E_OS ∧
      (server_write_key_value defaultWriteEnv ['x'] [] []).1 = ServerErr.E_OS := by
  decide

/-! ### Claim C6 — the success response for SET and DEL -/

/-- C6 counterexample: a successful SET does not send exactly the two
characters "OK" plus a newline — send() is handed
sizeof(SERVER_OK_RESPONSE) = 4 bytes, so the NUL terminator goes on the
wire too. -/
theorem c6_nul_byte_counterexample :
    (server_op_process defaultWriteEnv ⟨ServerOp.SET, some ['k'], some ['v']⟩ []).sends =
        [['O', 'K', '\n', '\x00']] ∧
      (['O', 'K', '\n', '\x00'] : List Char) ≠ ['O', 'K', '\n'] := by
  decide

/-- C6 (amended): for every SET or DEL command the backend completes
successfully, the server performs exactly one send, whose bytes are the
four bytes of sizeof(SERVER_OK_RESPONSE): "OK", the newline, and the
string's NUL terminator. -/
theorem c6_ok_response_amended (wenv : WriteEnv) (k v : List Char)
    (a1 : Option (List Char)) (st : Store) :
    ((server_write_key_value wenv k v st).1 = ServerErr.OK →
        (server_op_process wenv ⟨ServerOp.SET, some k, some v⟩ st).sends =
          [okResponseBytes]) ∧
      ((server_delete_key_value k st).1 = ServerErr.OK →
        (server_op_process wenv ⟨ServerOp.DEL, some k, a1⟩ st).sends =
          [okResponseBytes]) := by
  constructor
  · intro h
    simp [server_op_process, processBackend, h]
  · intro h
    simp [server_op_process, processBackend, h]

/-- C6 witness: the amended response fact at a concrete successful SET. -/
theorem c6_ok_response_witness :
    (server_write_key_value defaultWriteEnv ['k'] ['v'] []).1 = ServerErr.OK ∧
      (server_op_process defaultWriteEnv ⟨ServerOp.SET, some ['k'], some ['v']⟩ []).sends =
        [okResponseBytes] :=
  ⟨by decide,
    (c6_ok_response_amended defaultWriteEnv ['k'] ['v'] none []).1 (by decide)⟩

end DictServer
